import Mathlib

/-!
Verification of the product-comparison pipeline in `eccc.py`.

The program is a fixed four-stage pipeline (extract → Amazon search →
Google search → rank/summarize) over Python dictionaries.  We embed the
Python dictionaries as association lists of a small value type `PyVal`
(strings, floats as rationals, and `None`), the two provider clients as
functions of the query and of the outcome of the single HTTP request
they perform, and the LangGraph state graph as an explicit
node/edge/step interpreter over the typed pipeline state.
-/

namespace ECCC

/-- The fragment of Python values occurring in this program's product
records and raw API entries: strings, floats (embedded as rationals,
which is exact for every decimal literal the program handles), and
`None`. -/
inductive PyVal where
  | str (s : String)
  | num (q : ℚ)
  | none
deriving DecidableEq, Repr

/-- A Python dict with string keys, embedded as an association list.
Every dict this program builds has distinct keys, so first-match lookup
coincides with Python dict lookup. -/
abbrev Dict := List (String × PyVal)

/-- Python `d[k]`: `some` value, or `Option.none` when the access would
raise `KeyError`. -/
def pyIndex (d : Dict) (k : String) : Option PyVal :=
  List.lookup k d

/-- Python `d.get(k, default)`. -/
def pyGet (d : Dict) (k : String) (default : PyVal) : PyVal :=
  (List.lookup k d).getD default

/-- Python truthiness on `PyVal`: `None`, `""` and `0` are falsy. -/
def pyTruthy : PyVal → Bool
  | .str s => s ≠ ""
  | .num q => q ≠ 0
  | .none => false

/-- The digit values of a character list, or `Option.none` if the list
contains a non-digit. -/
def digitVals : List Char → Option (List ℕ)
  | [] => some []
  | c :: cs =>
    if c.isDigit then (digitVals cs).map (fun ds => (c.toNat - 48) :: ds)
    else Option.none

/-- A digit list read as a base-10 natural number. -/
def natOfDigits (ds : List ℕ) : ℕ :=
  ds.foldl (fun a d => 10 * a + d) 0

/-- Models Python `float(s)` on the plain decimal fragment this program
meets: an optional sign followed by digits with at most one decimal
point and at least one digit (exponents, `inf`/`nan` and surrounding
whitespace, which no provider field uses here, are not modelled and
count as unparseable).  `Option.none` models the raised `ValueError`. -/
def parsePyFloat (s : String) : Option ℚ :=
  let body : Bool × List Char := match s.data with
    | '-' :: r => (true, r)
    | '+' :: r => (false, r)
    | cs => (false, cs)
  let signed : ℕ → ℕ → Option ℚ := fun n den =>
    some (if body.1 then -(mkRat n den) else mkRat n den)
  match body.2.splitOn '.' with
  | [ip] =>
    match digitVals ip with
    | some ds => if ds.isEmpty then Option.none else signed (natOfDigits ds) 1
    | Option.none => Option.none
  | [ip, fp] =>
    match digitVals ip, digitVals fp with
    | some di, some df =>
      if di.isEmpty && df.isEmpty then Option.none
      else signed (Nat.pow 10 fp.length * natOfDigits di + natOfDigits df)
             (Nat.pow 10 fp.length)
    | _, _ => Option.none
  | _ => Option.none

/-- Python `float(v)` on the values this program feeds it: numbers pass
through, strings are parsed, `float(None)` raises (`Option.none`). -/
def pyFloat : PyVal → Option ℚ
  | .num q => some q
  | .str s => parsePyFloat s
  | .none => Option.none

/-- The outcome of one provider HTTP interaction, as far as the program
can observe it: `exn` is any raised error (network failure, timeout,
JSON decode error), `ok status entries` is a decoded response with its
HTTP status code and the provider's raw product-entry list (the list
the source reaches by defaulting key navigation, e.g.
`data.get("data", {}).get("products", [])`; absent keys yield `[]`). -/
inductive Outcome where
  | exn
  | ok (status : ℕ) (entries : List Dict)
deriving DecidableEq, Repr

/-- The per-entry body of the Amazon result loop: builds the product
dict from one raw entry.  `Option.none` models an exception escaping
the loop body (only `float(...)` can raise here). -/
def parseAmazonEntry (p : Dict) : Option Dict :=
  let star := pyGet p "product_star_rating" (.str "0")
  let starOrZero := if pyTruthy star then star else PyVal.num 0
  (pyFloat starOrZero).map (fun r =>
    [("title", pyGet p "product_title" PyVal.none),
     ("price", pyGet p "product_price" PyVal.none),
     ("rating", PyVal.num r),
     ("link",
       let u := pyGet p "product_url" PyVal.none
       if pyTruthy u then u else PyVal.str "Link not available")])

/-- The result-building loop shared by both providers: applies the
per-entry parser to each raw entry in order, aborting the whole list
(the caught exception path) as soon as one entry raises. -/
def parseEntries (f : Dict → Option Dict) : List Dict → Option (List Dict)
  | [] => some []
  | e :: es =>
    match f e, parseEntries f es with
    | some d, some ds => some (d :: ds)
    | _, _ => Option.none

/-- `fallback_amazon` from the source. -/
def fallback_amazon : List Dict :=
  [[("title", .str "Fallback Product A"), ("price", .str "₹50,000"),
    ("rating", .num (mkRat 43 10)), ("link", .str "https://amazon.in/fallback-a")],
   [("title", .str "Fallback Product B"), ("price", .str "₹45,000"),
    ("rating", .num (mkRat 41 10)), ("link", .str "https://amazon.in/fallback-b")]]

/-- `fallback_google` from the source. -/
def fallback_google : List Dict :=
  [[("title", .str "Fallback Google Product A"), ("price", .str "₹48,000"),
    ("rating", .num (mkRat 4 1)), ("link", .str "https://google.com/fallback-a")],
   [("title", .str "Fallback Google Product B"), ("price", .str "₹52,000"),
    ("rating", .num (mkRat 42 10)), ("link", .str "https://google.com/fallback-b")]]

/-- `search_amazon_products` from the source, as a function of the
query and of the outcome of its single HTTP request.  On status 200 it
parses the first 5 raw entries; a raised error anywhere (modelled by
`Outcome.exn` or a failing entry parse), a non-200 status, or an empty
parsed list all return the fallback list. -/
def search_amazon_products (query : String) (o : Outcome) : List Dict :=
  match o with
  | .exn => fallback_amazon
  | .ok status entries =>
    if status = 200 then
      match parseEntries parseAmazonEntry (entries.take 5) with
      | some products => if products.isEmpty then fallback_amazon else products
      | Option.none => fallback_amazon
    else fallback_amazon

/-- The per-entry body of the Google Shopping result loop.  Note the
differences from Amazon: `price` defaults to `"N/A"`, the rating is
`float(item.get("rating", 0.0))` with no `or`-guard (so a present
`None` rating raises), and `link` has no sentinel default. -/
def parseGoogleEntry (item : Dict) : Option Dict :=
  (pyFloat (pyGet item "rating" (PyVal.num 0))).map (fun r =>
    [("title", pyGet item "title" PyVal.none),
     ("price", pyGet item "price" (PyVal.str "N/A")),
     ("rating", PyVal.num r),
     ("link", pyGet item "link" PyVal.none)])

/-- `search_google_shopping` from the source.  `products` starts `[]`,
is filled only on status 200, and the function returns the fallback
list whenever the final list is empty or an exception was raised. -/
def search_google_shopping (query : String) (o : Outcome) : List Dict :=
  match o with
  | .exn => fallback_google
  | .ok status entries =>
    let products :=
      if status = 200 then parseEntries parseGoogleEntry (entries.take 5)
      else some []
    match products with
    | some ps => if ps.isEmpty then fallback_google else ps
    | Option.none => fallback_google

/-- The sort key `lambda x: x.get("rating", 0.0)` of `rank_products`.
Python compares the looked-up values as floats; on every dict this
pipeline ranks the `"rating"` value is a number (theorem
`search_amazon_products_wf` / `search_google_shopping_wf`), so the
catch-all branch for non-numeric values is never exercised by program
data. -/
def ratingOf (d : Dict) : ℚ :=
  match pyGet d "rating" (PyVal.num 0) with
  | .num q => q
  | _ => 0

/-- The order realised by Python's `sorted(key=rating, reverse=True)`:
a stable descending sort places `a` before `b` exactly when `a`'s key
is larger, or the keys tie and `a` came first.  On index-tagged
elements this is the total lexicographic order on
(descending key, ascending original position). -/
def rankRel (a b : ℕ × Dict) : Prop :=
  ratingOf b.2 < ratingOf a.2 ∨ (ratingOf a.2 = ratingOf b.2 ∧ a.1 ≤ b.1)

instance : DecidableRel rankRel := fun a b => by
  unfold rankRel; infer_instance

instance : IsTotal (ℕ × Dict) rankRel where
  total a b := by
    rcases lt_trichotomy (ratingOf a.2) (ratingOf b.2) with h | h | h
    · exact Or.inr (Or.inl h)
    · rcases Nat.le_total a.1 b.1 with h1 | h1
      · exact Or.inl (Or.inr ⟨h, h1⟩)
      · exact Or.inr (Or.inr ⟨h.symm, h1⟩)
    · exact Or.inl (Or.inl h)

instance : IsTrans (ℕ × Dict) rankRel where
  trans a b c hab hbc := by
    rcases hab with h1 | ⟨e1, i1⟩
    · rcases hbc with h2 | ⟨e2, _⟩
      · exact Or.inl (h2.trans h1)
      · exact Or.inl (e2 ▸ h1)
    · rcases hbc with h2 | ⟨e2, i2⟩
      · exact Or.inl (e1 ▸ h2)
      · exact Or.inr ⟨e1.trans e2, i1.trans i2⟩

/-- The index-tagged stable sort underlying
`sorted(all_products, key=lambda x: x.get("rating", 0.0), reverse=True)`. -/
def stableSortEnum (l : List Dict) : List (ℕ × Dict) :=
  List.insertionSort rankRel l.enum

/-- Python `sorted(l, key=lambda x: x.get("rating", 0.0), reverse=True)`:
the stable descending-by-rating sort. -/
def pySortByRatingDesc (l : List Dict) : List Dict :=
  (stableSortEnum l).map Prod.snd

/-- The fractional digits of a rational in `[0, 1)`, most significant
first, up to `fuel` digits (floats print at most 17 significant
digits, so the fuel is never hit on program data). -/
def fracDigitsStr (fuel : ℕ) (q : ℚ) : String :=
  match fuel with
  | 0 => ""
  | n + 1 =>
    if q = 0 then ""
    else
      let d := (q * 10).floor.toNat
      (Char.ofNat (48 + d)).toString ++ fracDigitsStr n (q * 10 - (q * 10).floor)

/-- Python `str` on a float, for the exact short decimals this program
handles: always shows at least one fractional digit (`str(4.0)` is
`"4.0"`). -/
def floatRepr (q : ℚ) : String :=
  let sgn := if q < 0 then "-" else ""
  let aq := |q|
  let ip := aq.floor.toNat
  let fp := aq - aq.floor
  sgn ++ toString ip ++ "." ++ (if fp = 0 then "0" else fracDigitsStr 30 fp)

/-- Python `str` of a `PyVal`, as interpolated by the summary's
f-strings (`str(None)` is `"None"`). -/
def pyStr : PyVal → String
  | .str s => s
  | .num q => floatRepr q
  | .none => "None"

/-- One summary item line
`f"{i}. {p['title']} - {p['price']} - {p['rating']} ⭐{tag}\n   Link: {p['link']}"`.
The subscript accesses raise `KeyError` (`Option.none`) on a missing
key. -/
def render_item (tag : String) (i : ℕ) (p : Dict) : Option String := do
  let t ← pyIndex p "title"
  let pr ← pyIndex p "price"
  let r ← pyIndex p "rating"
  let l ← pyIndex p "link"
  some (toString i ++ ". " ++ pyStr t ++ " - " ++ pyStr pr ++ " - "
        ++ pyStr r ++ " ⭐" ++ tag ++ "\n   Link: " ++ pyStr l)

/-- One `for i, p in enumerate(l, i0)` summary loop: renders each item
line in order, propagating a raised `KeyError`. -/
def renderLines (tag : String) (i0 : ℕ) : List Dict → Option (List String)
  | [] => some []
  | p :: ps =>
    match render_item tag i0 p, renderLines tag (i0 + 1) ps with
    | some s, some ss => some (s :: ss)
    | _, _ => Option.none

/-- The pipeline state `ProductSearchState` from the source. -/
structure ProductSearchState where
  user_input : String
  amazon_products : Option (List Dict)
  google_products : Option (List Dict)
  ranked_products : Option (List Dict)
  output_summary : Option String
deriving DecidableEq, Repr

/-- A partial state as returned by a LangGraph node: `some` on a field
means the node's returned dict carries that key and the graph writes
it into the state; `Option.none` means the field is untouched. -/
structure StateUpdate where
  user_input : Option String
  amazon_products : Option (List Dict)
  google_products : Option (List Dict)
  ranked_products : Option (List Dict)
  output_summary : Option String
deriving DecidableEq, Repr

/-- Merge one written channel into the state. -/
def writeField {α : Type} (u : Option α) (old : α) : α :=
  match u with
  | some v => v
  | Option.none => old

/-- LangGraph's state merge: each key present in the node's returned
dict overwrites the corresponding state channel. -/
def applyUpdate (s : ProductSearchState) (u : StateUpdate) : ProductSearchState :=
  ⟨writeField u.user_input s.user_input,
   writeField (u.amazon_products.map some) s.amazon_products,
   writeField (u.google_products.map some) s.google_products,
   writeField (u.ranked_products.map some) s.ranked_products,
   writeField (u.output_summary.map some) s.output_summary⟩

/-- Node `extract_product`: returns `{"user_input": state["user_input"]}`. -/
def extract_product (state : ProductSearchState) : StateUpdate :=
  ⟨some state.user_input, Option.none, Option.none, Option.none, Option.none⟩

/-- Node `search_amazon`, parameterised by the oracle giving the HTTP
outcome the Amazon client observes for each query. -/
def search_amazon (oracleA : String → Outcome) (state : ProductSearchState) : StateUpdate :=
  ⟨Option.none, some (search_amazon_products state.user_input (oracleA state.user_input)),
   Option.none, Option.none, Option.none⟩

/-- Node `search_google`, parameterised by the Google outcome oracle. -/
def search_google (oracleB : String → Outcome) (state : ProductSearchState) : StateUpdate :=
  ⟨Option.none, Option.none,
   some (search_google_shopping state.user_input (oracleB state.user_input)),
   Option.none, Option.none⟩

/-- Node `rank_products` from the source: reads `user_input` and the
two (possibly absent) product lists, ranks their concatenation, and
renders the summary.  `Option.none` models a `KeyError` escaping the
node (the only unhandled failure mode of the pipeline). -/
def rank_products (state : ProductSearchState) : Option StateUpdate :=
  let amazon := state.amazon_products.getD []
  let google := state.google_products.getD []
  let all_products := amazon ++ google
  let ranked := (pySortByRatingDesc all_products).take 3
  match renderLines " [Amazon]" 1 amazon, renderLines " [Google]" 1 google,
        renderLines "" 1 ranked with
  | some aLines, some gLines, some rLines =>
    some ⟨Option.none, Option.none, Option.none, some ranked,
      some (String.intercalate "\n"
        (["🔍 **Extracted product name:** " ++ state.user_input, ""]
         ++ ["--- 🛒 **Amazon Products** ---"] ++ aLines
         ++ ["--- 🛒 **Google Products** ---"] ++ gLines
         ++ ["=== 🏆 **Top 3 Products Overall** ==="] ++ rLines))⟩
  | _, _, _ => Option.none

/-- The node table of the compiled graph (`builder.add_node` lines). -/
def applyNode (oracleA oracleB : String → Outcome) (name : String)
    (s : ProductSearchState) : Option StateUpdate :=
  match name with
  | "extract_product" => some (extract_product s)
  | "search_amazon" => some (search_amazon oracleA s)
  | "search_google" => some (search_google oracleB s)
  | "rank_products" => rank_products s
  | _ => Option.none

/-- The edge table of the compiled graph (`builder.add_edge` lines);
`"END"` stands for the END sentinel. -/
def edgeOf : String → String
  | "extract_product" => "search_amazon"
  | "search_amazon" => "search_google"
  | "search_google" => "rank_products"
  | _ => "END"

/-- The entry point set by `builder.set_entry_point`. -/
def entryPoint : String := "extract_product"

/-- Sequential execution of the compiled graph from a node: runs each
node, merges its returned partial state, and follows the unique
outgoing edge until END.  Returns the trace of (node name, state on
entry) pairs and the final state; `Option.none` models an unhandled
exception in a node (or fuel exhaustion, which the 4-node chain never
reaches with fuel ≥ 5). -/
def runFrom (oracleA oracleB : String → Outcome) (fuel : ℕ) (name : String)
    (s : ProductSearchState) :
    Option (List (String × ProductSearchState) × ProductSearchState) :=
  match fuel with
  | 0 => Option.none
  | n + 1 =>
    if name = "END" then some ([], s)
    else
      match applyNode oracleA oracleB name s with
      | some u =>
        match runFrom oracleA oracleB n (edgeOf name) (applyUpdate s u) with
        | some (tr, fin) => some ((name, s) :: tr, fin)
        | Option.none => Option.none
      | Option.none => Option.none

/-- `graph.invoke(input_state)`: run the compiled graph from its entry
point on an initial state holding only the query. -/
def graph_invoke (oracleA oracleB : String → Outcome) (input : ProductSearchState) :
    Option (List (String × ProductSearchState) × ProductSearchState) :=
  runFrom oracleA oracleB 5 entryPoint input

/-- The initial state `{"user_input": user_input_text}`. -/
def initState (q : String) : ProductSearchState :=
  ⟨q, Option.none, Option.none, Option.none, Option.none⟩

/-- The user-visible effects of one `run_product_search` interaction:
outbound provider calls, the rendered summary, or the warning. -/
inductive UIEvent where
  | callAmazon (q : String)
  | callGoogle (q : String)
  | shownSummary (s : String)
  | warned (msg : String)
deriving DecidableEq, Repr

/-- The provider-call events of a graph trace: the two search nodes
are the only places a network request leaves the program. -/
def callEventsOf (tr : List (String × ProductSearchState)) : List UIEvent :=
  tr.filterMap (fun p =>
    if p.1 = "search_amazon" then some (.callAmazon p.2.user_input)
    else if p.1 = "search_google" then some (.callGoogle p.2.user_input)
    else Option.none)

/-- `run_product_search` from the source, as the list of events one
button interaction produces: nothing unless the button was pressed; on
a truthy (non-empty) query, the pipeline runs and the summary is
shown; on an empty query only the warning is shown. -/
def run_product_search (oracleA oracleB : String → Outcome)
    (pressed : Bool) (user_input_text : String) : List UIEvent :=
  if pressed then
    if user_input_text ≠ "" then
      match graph_invoke oracleA oracleB (initState user_input_text) with
      | some (tr, fin) =>
        callEventsOf tr ++
          (match fin.output_summary with
           | some s => [.shownSummary s]
           | Option.none => [])
      | Option.none => []
    else [.warned "Please enter a product query."]
  else []

/-- A product record carries the four keys the summary renderer
subscripts, with a numeric `"rating"`. -/
def hasKeys (d : Dict) : Bool :=
  (pyIndex d "title").isSome && (pyIndex d "price").isSome &&
  (match pyIndex d "rating" with
   | some (.num _) => true
   | _ => false) &&
  (pyIndex d "link").isSome

theorem parseAmazonEntry_hasKeys {e d : Dict} (h : parseAmazonEntry e = some d) :
    hasKeys d = true := by
  unfold parseAmazonEntry at h
  rcases Option.map_eq_some'.1 h with ⟨r, _, hd⟩
  subst hd
  simp [hasKeys, pyIndex, List.lookup]

theorem parseGoogleEntry_hasKeys {e d : Dict} (h : parseGoogleEntry e = some d) :
    hasKeys d = true := by
  unfold parseGoogleEntry at h
  rcases Option.map_eq_some'.1 h with ⟨r, _, hd⟩
  subst hd
  simp [hasKeys, pyIndex, List.lookup]

theorem parseEntries_mem {f : Dict → Option Dict} :
    ∀ {l ds : List Dict}, parseEntries f l = some ds →
      ∀ d ∈ ds, ∃ e ∈ l, f e = some d := by
  intro l
  induction l with
  | nil =>
    intro ds h d hd
    simp [parseEntries] at h
    subst h
    simp at hd
  | cons e es ih =>
    intro ds h d hd
    unfold parseEntries at h
    rcases hfe : f e with _ | d0 <;> rw [hfe] at h
    · exact absurd h (by simp)
    · rcases hres : parseEntries f es with _ | ds0 <;> rw [hres] at h
      · exact absurd h (by simp)
      · rcases Option.some.inj h with rfl
        rcases List.mem_cons.1 hd with rfl | hmem
        · exact ⟨e, List.mem_cons_self _ _, hfe⟩
        · rcases ih hres d hmem with ⟨e', he', hfe'⟩
          exact ⟨e', List.mem_cons_of_mem _ he', hfe'⟩

theorem parseEntries_length {f : Dict → Option Dict} :
    ∀ {l ds : List Dict}, parseEntries f l = some ds → ds.length = l.length := by
  intro l
  induction l with
  | nil =>
    intro ds h
    simp [parseEntries] at h
    subst h
    rfl
  | cons e es ih =>
    intro ds h
    unfold parseEntries at h
    rcases hfe : f e with _ | d0 <;> rw [hfe] at h
    · exact absurd h (by simp)
    · rcases hres : parseEntries f es with _ | ds0 <;> rw [hres] at h
      · exact absurd h (by simp)
      · rcases Option.some.inj h with rfl
        simp [ih hres]

theorem fallback_amazon_hasKeys : ∀ d ∈ fallback_amazon, hasKeys d = true := by
  decide

theorem fallback_google_hasKeys : ∀ d ∈ fallback_google, hasKeys d = true := by
  decide

theorem search_amazon_ok200_some (q : String) (entries ps : List Dict)
    (hres : parseEntries parseAmazonEntry (entries.take 5) = some ps) :
    search_amazon_products q (.ok 200 entries) =
      if ps.isEmpty then fallback_amazon else ps := by
  simp only [search_amazon_products, hres]
  rfl

theorem search_amazon_ok200_none (q : String) (entries : List Dict)
    (hres : parseEntries parseAmazonEntry (entries.take 5) = Option.none) :
    search_amazon_products q (.ok 200 entries) = fallback_amazon := by
  simp only [search_amazon_products, hres]
  rfl

theorem search_amazon_non200 (q : String) (status : ℕ) (entries : List Dict)
    (h : status ≠ 200) :
    search_amazon_products q (.ok status entries) = fallback_amazon := by
  simp only [search_amazon_products, if_neg h]

theorem search_google_ok200_some (q : String) (entries ps : List Dict)
    (hres : parseEntries parseGoogleEntry (entries.take 5) = some ps) :
    search_google_shopping q (.ok 200 entries) =
      if ps.isEmpty then fallback_google else ps := by
  simp only [search_google_shopping, hres]
  rfl

theorem search_google_ok200_none (q : String) (entries : List Dict)
    (hres : parseEntries parseGoogleEntry (entries.take 5) = Option.none) :
    search_google_shopping q (.ok 200 entries) = fallback_google := by
  simp only [search_google_shopping, hres]
  rfl

theorem search_google_non200 (q : String) (status : ℕ) (entries : List Dict)
    (h : status ≠ 200) :
    search_google_shopping q (.ok status entries) = fallback_google := by
  simp only [search_google_shopping, if_neg h]
  rfl

/-- Every record the Amazon client can return carries all four
renderer keys with a numeric rating. -/
theorem search_amazon_products_wf (q : String) (o : Outcome) :
    ∀ d ∈ search_amazon_products q o, hasKeys d = true := by
  intro d hd
  rcases o with _ | ⟨status, entries⟩
  · exact fallback_amazon_hasKeys d hd
  · by_cases hs : status = 200
    · subst hs
      rcases hres : parseEntries parseAmazonEntry (entries.take 5) with _ | ps
      · rw [search_amazon_ok200_none q entries hres] at hd
        exact fallback_amazon_hasKeys d hd
      · rw [search_amazon_ok200_some q entries ps hres] at hd
        by_cases hemp : ps.isEmpty
        · rw [if_pos hemp] at hd
          exact fallback_amazon_hasKeys d hd
        · rw [if_neg hemp] at hd
          rcases parseEntries_mem hres d hd with ⟨e, _, hfe⟩
          exact parseAmazonEntry_hasKeys hfe
    · rw [search_amazon_non200 q status entries hs] at hd
      exact fallback_amazon_hasKeys d hd

/-- Every record the Google client can return carries all four
renderer keys with a numeric rating. -/
theorem search_google_shopping_wf (q : String) (o : Outcome) :
    ∀ d ∈ search_google_shopping q o, hasKeys d = true := by
  intro d hd
  rcases o with _ | ⟨status, entries⟩
  · exact fallback_google_hasKeys d hd
  · by_cases hs : status = 200
    · subst hs
      rcases hres : parseEntries parseGoogleEntry (entries.take 5) with _ | ps
      · rw [search_google_ok200_none q entries hres] at hd
        exact fallback_google_hasKeys d hd
      · rw [search_google_ok200_some q entries ps hres] at hd
        by_cases hemp : ps.isEmpty
        · rw [if_pos hemp] at hd
          exact fallback_google_hasKeys d hd
        · rw [if_neg hemp] at hd
          rcases parseEntries_mem hres d hd with ⟨e, _, hfe⟩
          exact parseGoogleEntry_hasKeys hfe
    · rw [search_google_non200 q status entries hs] at hd
      exact fallback_google_hasKeys d hd

theorem pySort_perm (l : List Dict) : List.Perm (pySortByRatingDesc l) l := by
  have h := (List.perm_insertionSort rankRel l.enum).map Prod.snd
  rwa [List.enum_map_snd] at h

theorem pySort_length (l : List Dict) : (pySortByRatingDesc l).length = l.length :=
  (pySort_perm l).length_eq

theorem pySort_mem {l : List Dict} {d : Dict} :
    d ∈ pySortByRatingDesc l ↔ d ∈ l :=
  (pySort_perm l).mem_iff

theorem stableSortEnum_sorted (l : List Dict) :
    List.Sorted rankRel (stableSortEnum l) :=
  List.sorted_insertionSort rankRel l.enum

theorem pySort_pairwise (l : List Dict) :
    (pySortByRatingDesc l).Pairwise (fun a b => ratingOf b ≤ ratingOf a) := by
  apply List.pairwise_map.2
  refine (stableSortEnum_sorted l).imp (fun h => ?_)
  rcases h with h | ⟨h, _⟩
  · exact le_of_lt h
  · exact le_of_eq h.symm

theorem head_max_of_pairwise {l : List Dict} {h : Dict}
    (hp : l.Pairwise (fun a b => ratingOf b ≤ ratingOf a))
    (hh : l.head? = some h) : ∀ d ∈ l, ratingOf d ≤ ratingOf h := by
  cases l with
  | nil => cases hh
  | cons a t =>
    rcases Option.some.inj hh with rfl
    intro d hd
    rcases List.mem_cons.1 hd with rfl | hmem
    · exact le_refl _
    · exact (List.pairwise_cons.1 hp).1 d hmem

theorem head?_take_three {α : Type} (l : List α) : (l.take 3).head? = l.head? := by
  cases l <;> rfl

theorem pyGet_eq_pyIndex (d : Dict) (k : String) (v : PyVal) :
    pyGet d k v = (pyIndex d k).getD v :=
  rfl

/-- The item line as the spec describes it: 1-based index, then title,
price, rating and link, read totally (every record rendered carries
the four keys, so the defaults are never consulted). -/
def specItemLine (tag : String) (i : ℕ) (p : Dict) : String :=
  toString i ++ ". " ++ pyStr (pyGet p "title" PyVal.none) ++ " - "
    ++ pyStr (pyGet p "price" PyVal.none) ++ " - "
    ++ pyStr (pyGet p "rating" PyVal.none) ++ " ⭐" ++ tag
    ++ "\n   Link: " ++ pyStr (pyGet p "link" PyVal.none)

/-- One labelled section as the spec describes it: the header line
followed by one item line per product, indexed from 1. -/
def specSection (header tag : String) (l : List Dict) : List String :=
  header :: (List.enumFrom 1 l).map (fun p => specItemLine tag p.1 p.2)

/-- The report as the spec describes it, in fixed order: the echoed
query, the Amazon section, the Google section, and the top-3-overall
section holding the first 3 of the stable descending-by-rating sort of
the concatenation.  A section over an empty list is just its header. -/
def specSummary (q : String) (amazon google : List Dict) : String :=
  String.intercalate "\n"
    (["🔍 **Extracted product name:** " ++ q, ""]
     ++ specSection "--- 🛒 **Amazon Products** ---" " [Amazon]" amazon
     ++ specSection "--- 🛒 **Google Products** ---" " [Google]" google
     ++ specSection "=== 🏆 **Top 3 Products Overall** ===" ""
          ((pySortByRatingDesc (amazon ++ google)).take 3))

theorem render_item_eq {d : Dict} (tag : String) (i : ℕ) (h : hasKeys d = true) :
    render_item tag i d = some (specItemLine tag i d) := by
  simp only [hasKeys, Bool.and_eq_true] at h
  obtain ⟨⟨⟨ht, hp⟩, hr⟩, hl⟩ := h
  rcases Option.isSome_iff_exists.1 ht with ⟨t, ht⟩
  rcases Option.isSome_iff_exists.1 hp with ⟨pr, hp⟩
  rcases Option.isSome_iff_exists.1 hl with ⟨lk, hl⟩
  rcases hrv : pyIndex d "rating" with _ | v
  · rw [hrv] at hr
    cases hr
  · simp only [render_item, specItemLine, pyGet_eq_pyIndex, ht, hp, hl, hrv,
      Option.getD_some, Option.bind_some]
    rfl

theorem renderLines_eq (tag : String) :
    ∀ (l : List Dict) (i0 : ℕ), (∀ d ∈ l, hasKeys d = true) →
      renderLines tag i0 l =
        some ((List.enumFrom i0 l).map (fun p => specItemLine tag p.1 p.2)) := by
  intro l
  induction l with
  | nil => intro i0 _; rfl
  | cons p ps ih =>
    intro i0 h
    have hp := h p (List.mem_cons_self _ _)
    have hps := fun d hd => h d (List.mem_cons_of_mem _ hd)
    simp only [renderLines, render_item_eq tag i0 hp, ih (i0 + 1) hps,
      List.enumFrom_cons, List.map_cons]

/-- On well-keyed product lists (absent lists read as empty), the rank
node succeeds and returns exactly the top-3 ranked list and the
spec-shaped summary; it writes nothing else. -/
theorem rank_products_spec (s : ProductSearchState)
    (ha : ∀ d ∈ s.amazon_products.getD [], hasKeys d = true)
    (hg : ∀ d ∈ s.google_products.getD [], hasKeys d = true) :
    rank_products s = some ⟨Option.none, Option.none, Option.none,
      some ((pySortByRatingDesc
        (s.amazon_products.getD [] ++ s.google_products.getD [])).take 3),
      some (specSummary s.user_input
        (s.amazon_products.getD []) (s.google_products.getD []))⟩ := by
  have hr : ∀ d ∈ (pySortByRatingDesc
      (s.amazon_products.getD [] ++ s.google_products.getD [])).take 3,
      hasKeys d = true := by
    intro d hd
    rcases List.mem_append.1 (pySort_mem.1 (List.mem_of_mem_take hd)) with h | h
    · exact ha d h
    · exact hg d h
  simp only [rank_products, renderLines_eq _ _ _ ha, renderLines_eq _ _ _ hg,
    renderLines_eq _ _ _ hr, specSummary, specSection]
  simp

/-- One full run of the compiled graph: the four nodes fire exactly
once, in the fixed order extract → search-A → search-B → rank; the
trace records each node with the state it entered on, and every field,
once written, is carried unchanged to the final state. -/
theorem pipeline_run_eq (oracleA oracleB : String → Outcome) (q : String) :
    graph_invoke oracleA oracleB (initState q) =
      some ([("extract_product", initState q),
             ("search_amazon", initState q),
             ("search_google",
              ⟨q, some (search_amazon_products q (oracleA q)),
               Option.none, Option.none, Option.none⟩),
             ("rank_products",
              ⟨q, some (search_amazon_products q (oracleA q)),
               some (search_google_shopping q (oracleB q)),
               Option.none, Option.none⟩)],
            ⟨q, some (search_amazon_products q (oracleA q)),
             some (search_google_shopping q (oracleB q)),
             some ((pySortByRatingDesc
               (search_amazon_products q (oracleA q)
                ++ search_google_shopping q (oracleB q))).take 3),
             some (specSummary q (search_amazon_products q (oracleA q))
               (search_google_shopping q (oracleB q)))⟩) := by
  have hrank := rank_products_spec
    ⟨q, some (search_amazon_products q (oracleA q)),
     some (search_google_shopping q (oracleB q)), Option.none, Option.none⟩
    (fun d hd => search_amazon_products_wf q (oracleA q) d hd)
    (fun d hd => search_google_shopping_wf q (oracleB q) d hd)
  simp only [Option.getD_some] at hrank
  simp only [graph_invoke, runFrom, entryPoint, edgeOf, applyNode, applyUpdate,
    extract_product, search_amazon, search_google, initState, writeField, hrank,
    Option.map_some', Option.map_none']
  simp +decide

/-- Whenever the rank node succeeds, the ranked list it writes is the
3-prefix of the stable descending sort of the concatenation (absent
input lists read as empty). -/
theorem rank_products_ranked {s : ProductSearchState} {u : StateUpdate}
    (h : rank_products s = some u) :
    u.ranked_products = some ((pySortByRatingDesc
      (s.amazon_products.getD [] ++ s.google_products.getD [])).take 3) := by
  simp only [rank_products] at h
  split at h
  · rcases Option.some.inj h with rfl
    rfl
  · cases h

/-- Whenever the rank node succeeds, it writes only its two designated
fields. -/
theorem rank_products_writes {s : ProductSearchState} {u : StateUpdate}
    (h : rank_products s = some u) :
    u.user_input = Option.none ∧ u.amazon_products = Option.none ∧
    u.google_products = Option.none ∧ u.ranked_products.isSome ∧
    u.output_summary.isSome := by
  simp only [rank_products] at h
  split at h
  · rcases Option.some.inj h with rfl
    exact ⟨rfl, rfl, rfl, rfl, rfl⟩
  · cases h

theorem hasKeys_rating {d : Dict} (h : hasKeys d = true) :
    ∃ r : ℚ, pyIndex d "rating" = some (PyVal.num r) := by
  simp only [hasKeys, Bool.and_eq_true] at h
  rcases hrv : pyIndex d "rating" with _ | v
  · rw [hrv] at h
    rcases h with ⟨⟨_, h⟩, _⟩
    cases h
  · cases v with
    | num r => exact ⟨r, rfl⟩
    | str s =>
      rw [hrv] at h
      rcases h with ⟨⟨_, h⟩, _⟩
      cases h
    | none =>
      rw [hrv] at h
      rcases h with ⟨⟨_, h⟩, _⟩
      cases h

theorem search_amazon_products_ne_nil (q : String) (o : Outcome) :
    search_amazon_products q o ≠ [] := by
  rcases o with _ | ⟨status, entries⟩
  · exact fun h => List.noConfusion h
  · by_cases hs : status = 200
    · subst hs
      rcases hres : parseEntries parseAmazonEntry (entries.take 5) with _ | ps
      · rw [search_amazon_ok200_none q entries hres]
        decide
      · rw [search_amazon_ok200_some q entries ps hres]
        by_cases hemp : ps.isEmpty
        · rw [if_pos hemp]
          decide
        · rw [if_neg hemp]
          intro hnil
          exact hemp (by simp [hnil])
    · rw [search_amazon_non200 q status entries hs]
      decide

theorem search_google_shopping_ne_nil (q : String) (o : Outcome) :
    search_google_shopping q o ≠ [] := by
  rcases o with _ | ⟨status, entries⟩
  · exact fun h => List.noConfusion h
  · by_cases hs : status = 200
    · subst hs
      rcases hres : parseEntries parseGoogleEntry (entries.take 5) with _ | ps
      · rw [search_google_ok200_none q entries hres]
        decide
      · rw [search_google_ok200_some q entries ps hres]
        by_cases hemp : ps.isEmpty
        · rw [if_pos hemp]
          decide
        · rw [if_neg hemp]
          intro hnil
          exact hemp (by simp [hnil])
    · rw [search_google_non200 q status entries hs]
      decide

/-- C1: for every pair of provider result lists, the rank stage's
`ranked_products` is the 3-prefix of the stable descending-by-rating
sort of the amazon-then-google concatenation; its length is
`min 3 (len amazon + len google)`, every element occurs in the
concatenation, and (for a non-empty concatenation) its first element's
rating is ≥ the rating of every element of the concatenation. -/
theorem rank_top3_correct (amazon google : List Dict) :
    (∀ (s : ProductSearchState) (u : StateUpdate),
        s.amazon_products = some amazon → s.google_products = some google →
        rank_products s = some u →
        u.ranked_products =
          some ((pySortByRatingDesc (amazon ++ google)).take 3)) ∧
    ((pySortByRatingDesc (amazon ++ google)).take 3).length
        = min 3 (amazon.length + google.length) ∧
    (∀ d ∈ (pySortByRatingDesc (amazon ++ google)).take 3, d ∈ amazon ++ google) ∧
    (amazon ++ google ≠ [] →
      ∃ h, ((pySortByRatingDesc (amazon ++ google)).take 3).head? = some h ∧
        ∀ d ∈ amazon ++ google, ratingOf d ≤ ratingOf h) := by
  refine ⟨?_, ?_, ?_, ?_⟩
  · intro s u hsa hsg hru
    have h := rank_products_ranked hru
    rw [hsa, hsg] at h
    simpa using h
  · simp [List.length_take, pySort_length]
  · intro d hd
    exact pySort_mem.1 (List.mem_of_mem_take hd)
  · intro hne
    rcases hsort : pySortByRatingDesc (amazon ++ google) with _ | ⟨h, t⟩
    · have := pySort_length (amazon ++ google)
      rw [hsort] at this
      exact absurd (List.length_eq_zero.1 this.symm) hne
    · refine ⟨h, rfl, ?_⟩
      intro d hd
      have hmem : d ∈ pySortByRatingDesc (amazon ++ google) := pySort_mem.2 hd
      have hp := pySort_pairwise (amazon ++ google)
      rw [hsort] at hmem hp
      exact head_max_of_pairwise hp rfl d hmem

/-- C1 witness: the ranking properties instantiated at the two
hard-coded fallback lists. -/
theorem rank_top3_correct_witness :
    fallback_amazon ++ fallback_google ≠ [] ∧
    (∃ h, ((pySortByRatingDesc (fallback_amazon ++ fallback_google)).take 3).head?
        = some h ∧
      ∀ d ∈ fallback_amazon ++ fallback_google, ratingOf d ≤ ratingOf h) :=
  ⟨by decide,
   (rank_top3_correct fallback_amazon fallback_google).2.2.2 (by decide)⟩

/-- C2: each provider search is total, never returns an empty list; on
HTTP 200 with a fully parsed non-empty record list it returns exactly
the first at-most-5 parsed records, and on a raised error, a non-200
status, a failed parse, or zero parsed records it returns the
provider's exact hard-coded 2-entry fallback list, whose entries carry
the advertised titles, prices and ratings. -/
theorem provider_search_contract (q : String) (o : Outcome) :
    search_amazon_products q o ≠ [] ∧
    search_google_shopping q o ≠ [] ∧
    (∀ entries ps, o = Outcome.ok 200 entries →
        parseEntries parseAmazonEntry (entries.take 5) = some ps → ps ≠ [] →
        search_amazon_products q o = ps ∧ ps.length ≤ 5) ∧
    (∀ entries ps, o = Outcome.ok 200 entries →
        parseEntries parseGoogleEntry (entries.take 5) = some ps → ps ≠ [] →
        search_google_shopping q o = ps ∧ ps.length ≤ 5) ∧
    (∀ status entries, o = Outcome.ok status entries → status ≠ 200 →
        search_amazon_products q o = fallback_amazon ∧
        search_google_shopping q o = fallback_google) ∧
    (o = Outcome.exn →
        search_amazon_products q o = fallback_amazon ∧
        search_google_shopping q o = fallback_google) ∧
    (∀ entries, o = Outcome.ok 200 entries →
        (parseEntries parseAmazonEntry (entries.take 5) = Option.none ∨
         parseEntries parseAmazonEntry (entries.take 5) = some []) →
        search_amazon_products q o = fallback_amazon) ∧
    (∀ entries, o = Outcome.ok 200 entries →
        (parseEntries parseGoogleEntry (entries.take 5) = Option.none ∨
         parseEntries parseGoogleEntry (entries.take 5) = some []) →
        search_google_shopping q o = fallback_google) ∧
    fallback_amazon.map (fun d =>
        (pyIndex d "title", pyIndex d "price", pyIndex d "rating"))
      = [(some (PyVal.str "Fallback Product A"), some (PyVal.str "₹50,000"),
          some (PyVal.num (mkRat 43 10))),
         (some (PyVal.str "Fallback Product B"), some (PyVal.str "₹45,000"),
          some (PyVal.num (mkRat 41 10)))] ∧
    fallback_amazon.length = 2 ∧ fallback_google.length = 2 := by
  refine ⟨search_amazon_products_ne_nil q o, search_google_shopping_ne_nil q o,
    ?_, ?_, ?_, ?_, ?_, ?_, by decide, rfl, rfl⟩
  · rintro entries ps rfl hres hne
    rw [search_amazon_ok200_some q entries ps hres,
      if_neg (by simpa [List.isEmpty_iff] using hne)]
    refine ⟨rfl, ?_⟩
    rw [parseEntries_length hres]
    exact List.length_take_le 5 entries
  · rintro entries ps rfl hres hne
    rw [search_google_ok200_some q entries ps hres,
      if_neg (by simpa [List.isEmpty_iff] using hne)]
    refine ⟨rfl, ?_⟩
    rw [parseEntries_length hres]
    exact List.length_take_le 5 entries
  · rintro status entries rfl hs
    exact ⟨search_amazon_non200 q status entries hs,
      search_google_non200 q status entries hs⟩
  · rintro rfl
    exact ⟨rfl, rfl⟩
  · rintro entries rfl (hres | hres)
    · exact search_amazon_ok200_none q entries hres
    · rw [search_amazon_ok200_some q entries [] hres]
      rfl
  · rintro entries rfl (hres | hres)
    · exact search_google_ok200_none q entries hres
    · rw [search_google_ok200_some q entries [] hres]
      rfl

/-- C2 witness: an HTTP 500 from either provider yields the exact
hard-coded fallback lists. -/
theorem provider_search_contract_witness :
    search_amazon_products "iPhone 14" (Outcome.ok 500 []) = fallback_amazon ∧
    search_google_shopping "iPhone 14" (Outcome.ok 500 []) = fallback_google :=
  (provider_search_contract "iPhone 14" (Outcome.ok 500 [])).2.2.2.2.1
    500 [] rfl (by decide)

/-- C3 counterexample: inside a successful (HTTP 200) Amazon response,
one entry whose star-rating field holds an unparseable string makes
`float(...)` raise, so the exception handler replaces the whole result
list with the fallback — the parsed record (title `"X"`) is lost,
contradicting "a missing or invalid field never causes the whole
record (or the whole result list) to fail" and "rating defaults to 0.0
when missing or invalid". -/
theorem field_default_cex :
    search_amazon_products "laptop"
        (Outcome.ok 200 [[("product_title", PyVal.str "X"),
                          ("product_star_rating", PyVal.str "not-a-number")]])
      = fallback_amazon ∧
    ∀ d ∈ search_amazon_products "laptop"
        (Outcome.ok 200 [[("product_title", PyVal.str "X"),
                          ("product_star_rating", PyVal.str "not-a-number")]]),
      pyIndex d "title" ≠ some (PyVal.str "X") := by
  decide

/-- C3 amended: within a successful response, per-field defaulting is
provider-specific.  Amazon: title and price are passed through with a
`None` default (no `"N/A"`), a missing star-rating key or a falsy
star-rating value defaults the rating to 0.0, and a falsy link value
gets the `"Link not available"` sentinel; a truthy star-rating string
that does not parse as a float raises, which replaces the entire
result list with the fallback.  Google: price defaults to `"N/A"`,
title and link are passed through with a `None` default (no sentinel),
a missing rating key defaults to 0.0, and a present-but-`None` rating
raises, again replacing the entire list with the fallback. -/
theorem field_default_amended (q : String) :
    (∀ e d, parseAmazonEntry e = some d →
        pyIndex d "title" = some (pyGet e "product_title" PyVal.none) ∧
        pyIndex d "price" = some (pyGet e "product_price" PyVal.none) ∧
        (¬ pyTruthy (pyGet e "product_url" PyVal.none) = true →
          pyIndex d "link" = some (PyVal.str "Link not available"))) ∧
    (∀ e d, parseAmazonEntry e = some d →
        ¬ pyTruthy (pyGet e "product_star_rating" (PyVal.str "0")) = true →
        pyIndex d "rating" = some (PyVal.num 0)) ∧
    (∀ e, List.lookup "product_star_rating" e = Option.none →
        ∃ d, parseAmazonEntry e = some d ∧
          pyIndex d "rating" = some (PyVal.num 0)) ∧
    (∀ e s, pyGet e "product_star_rating" (PyVal.str "0") = PyVal.str s →
        s ≠ "" → parsePyFloat s = Option.none →
        parseAmazonEntry e = Option.none) ∧
    (∀ entries, parseEntries parseAmazonEntry (entries.take 5) = Option.none →
        search_amazon_products q (Outcome.ok 200 entries) = fallback_amazon) ∧
    (∀ e d, parseGoogleEntry e = some d →
        pyIndex d "title" = some (pyGet e "title" PyVal.none) ∧
        pyIndex d "price" = some (pyGet e "price" (PyVal.str "N/A")) ∧
        pyIndex d "link" = some (pyGet e "link" PyVal.none)) ∧
    (∀ e, List.lookup "rating" e = Option.none →
        ∃ d, parseGoogleEntry e = some d ∧
          pyIndex d "rating" = some (PyVal.num 0)) ∧
    (∀ e, List.lookup "rating" e = some PyVal.none →
        parseGoogleEntry e = Option.none) ∧
    (∀ entries, parseEntries parseGoogleEntry (entries.take 5) = Option.none →
        search_google_shopping q (Outcome.ok 200 entries) = fallback_google) := by
  refine ⟨?_, ?_, ?_, ?_, search_amazon_ok200_none q, ?_, ?_, ?_,
    search_google_ok200_none q⟩
  · intro e d h
    rcases Option.map_eq_some'.1 h with ⟨r, _, rfl⟩
    refine ⟨rfl, rfl, ?_⟩
    intro hu
    rw [Bool.not_eq_true] at hu
    simp +decide [pyIndex, List.lookup, hu]
  · intro e d h hstar
    rcases Option.map_eq_some'.1 h with ⟨r, hr, rfl⟩
    rw [Bool.not_eq_true] at hstar
    simp only [hstar, Bool.false_eq_true, if_false, pyFloat,
      Option.some.injEq] at hr
    subst hr
    simp +decide [pyIndex, List.lookup]
  · intro e hmiss
    have hstar : pyGet e "product_star_rating" (PyVal.str "0") = PyVal.str "0" := by
      simp [pyGet, hmiss]
    simp only [parseAmazonEntry, hstar]
    exact ⟨_, rfl, by simp +decide [pyIndex, List.lookup]⟩
  · intro e s hstar hne hparse
    have htr : pyTruthy (PyVal.str s) = true := by
      simp [pyTruthy, hne]
    simp only [parseAmazonEntry, hstar, htr, eq_self_iff_true, if_true]
    simp only [pyFloat, hparse, Option.map_none']
  · intro e d h
    rcases Option.map_eq_some'.1 h with ⟨r, _, rfl⟩
    exact ⟨rfl, rfl, rfl⟩
  · intro e hmiss
    have hrv : pyGet e "rating" (PyVal.num 0) = PyVal.num 0 := by
      simp [pyGet, hmiss]
    simp only [parseGoogleEntry, hrv]
    exact ⟨_, rfl, by simp +decide [pyIndex, List.lookup]⟩
  · intro e hrv
    simp only [parseGoogleEntry, pyGet, hrv]
    rfl

/-- C3 amended witness: an Amazon entry with no star-rating key parses
with rating 0.0, and an Amazon entry with an unparseable star-rating
string raises. -/
theorem field_default_amended_witness :
    (List.lookup "product_star_rating"
        ([("product_title", PyVal.str "T")] : Dict) = Option.none ∧
      ∃ d, parseAmazonEntry [("product_title", PyVal.str "T")] = some d ∧
        pyIndex d "rating" = some (PyVal.num 0)) ∧
    parseAmazonEntry [("product_star_rating", PyVal.str "abc")] = Option.none := by
  have h := field_default_amended "q"
  refine ⟨⟨by decide, h.2.2.1 _ (by decide)⟩, ?_⟩
  exact h.2.2.2.1 _ "abc" (by decide) (by decide) (by decide)

/-- The position of the first occurrence of a tagged product in a
tagged list (the tags are the unique original indices, so the
occurrence is unique). -/
def posOf (x : ℕ × Dict) (l : List (ℕ × Dict)) : ℕ :=
  @List.indexOf (ℕ × Dict) instBEqOfDecidableEq x l

theorem posOf_lt_length {x : ℕ × Dict} {l : List (ℕ × Dict)} (h : x ∈ l) :
    posOf x l < l.length :=
  List.indexOf_lt_length.2 h

theorem posOf_get {x : ℕ × Dict} {l : List (ℕ × Dict)} (h : posOf x l < l.length) :
    l.get ⟨posOf x l, h⟩ = x :=
  List.indexOf_get h

/-- C4: the sort is stable — if two products of the amazon-then-google
concatenation tie on rating, the earlier occurrence (smaller original
index) sits at a strictly smaller position of the stable sort, and
`ranked_products` is the order-preserving 3-prefix of that sort, so
ties keep their concatenation order there as well. -/
theorem rank_stable_ties (amazon google : List Dict) (i j : ℕ)
    (hi : i < (amazon ++ google).length) (hj : j < (amazon ++ google).length)
    (hij : i < j)
    (htie : ratingOf ((amazon ++ google).get ⟨i, hi⟩)
          = ratingOf ((amazon ++ google).get ⟨j, hj⟩)) :
    posOf (i, (amazon ++ google).get ⟨i, hi⟩)
        (stableSortEnum (amazon ++ google))
      < posOf (j, (amazon ++ google).get ⟨j, hj⟩)
        (stableSortEnum (amazon ++ google)) ∧
    (pySortByRatingDesc (amazon ++ google)).take 3
      = ((stableSortEnum (amazon ++ google)).take 3).map Prod.snd := by
  have hmi : (i, (amazon ++ google).get ⟨i, hi⟩) ∈ stableSortEnum (amazon ++ google) := by
    apply (List.mem_insertionSort rankRel).2
    exact List.mk_mem_enum_iff_getElem?.2 (List.getElem?_eq_getElem hi)
  have hmj : (j, (amazon ++ google).get ⟨j, hj⟩) ∈ stableSortEnum (amazon ++ google) := by
    apply (List.mem_insertionSort rankRel).2
    exact List.mk_mem_enum_iff_getElem?.2 (List.getElem?_eq_getElem hj)
  have hki := posOf_lt_length hmi
  have hkj := posOf_lt_length hmj
  have hgi := posOf_get hki
  have hgj := posOf_get hkj
  constructor
  · rcases Nat.lt_trichotomy
      (posOf (i, (amazon ++ google).get ⟨i, hi⟩)
        (stableSortEnum (amazon ++ google)))
      (posOf (j, (amazon ++ google).get ⟨j, hj⟩)
        (stableSortEnum (amazon ++ google))) with hlt | heq | hgt
    · exact hlt
    · exfalso
      rw [show (⟨_, hki⟩ : Fin (stableSortEnum (amazon ++ google)).length)
            = ⟨_, hkj⟩ from Fin.mk_eq_mk.2 heq, hgj] at hgi
      have hji : j = i := congrArg Prod.fst hgi
      omega
    · exfalso
      have hrel := (stableSortEnum_sorted (amazon ++ google)).rel_get_of_lt
        (show (⟨_, hkj⟩ : Fin (stableSortEnum (amazon ++ google)).length)
            < ⟨_, hki⟩ from Fin.mk_lt_mk.2 hgt)
      rw [hgi, hgj] at hrel
      rcases hrel with hlt2 | ⟨_, hle⟩
      · rw [htie] at hlt2
        exact lt_irrefl _ hlt2
      · exact Nat.lt_irrefl j (Nat.lt_of_le_of_lt hle hij)
  · exact (List.map_take Prod.snd (stableSortEnum (amazon ++ google)) 3).symm

/-- C4 witness: a Google product tying the first Amazon fallback's
rating 4.3 sorts after it. -/
theorem rank_stable_ties_witness :
    posOf
        (0, [("title", PyVal.str "Fallback Product A"),
             ("price", PyVal.str "₹50,000"),
             ("rating", PyVal.num (mkRat 43 10)),
             ("link", PyVal.str "https://amazon.in/fallback-a")])
        (stableSortEnum (fallback_amazon ++ [[("rating", PyVal.num (mkRat 43 10))]]))
      < posOf
        (2, [("rating", PyVal.num (mkRat 43 10))])
        (stableSortEnum (fallback_amazon ++ [[("rating", PyVal.num (mkRat 43 10))]])) :=
  (rank_stable_ties fallback_amazon [[("rating", PyVal.num (mkRat 43 10))]]
    0 2 (by decide) (by decide) (by decide) (by decide)).1

/-- C5: on every state (with absent product lists read as empty lists,
and every record carrying the renderer's four keys), the rank node
emits a summary that is, in fixed order: the echoed query line, the
labelled Amazon section listing every amazon product with 1-based
index, title, price, rating and link, the labelled Google section
listing every google product the same way, and the labelled top-3
section listing the ranked list the same way; an empty section renders
only its header line. -/
theorem summary_structure (q : String) (oa og : Option (List Dict))
    (rp : Option (List Dict)) (os : Option String)
    (ha : ∀ d ∈ oa.getD [], hasKeys d = true)
    (hg : ∀ d ∈ og.getD [], hasKeys d = true) :
    rank_products ⟨q, oa, og, rp, os⟩ =
      some ⟨Option.none, Option.none, Option.none,
        some ((pySortByRatingDesc (oa.getD [] ++ og.getD [])).take 3),
        some (specSummary q (oa.getD []) (og.getD []))⟩ :=
  rank_products_spec ⟨q, oa, og, rp, os⟩ ha hg

/-- C5 witness: an absent Amazon list renders as an empty Amazon
section while the Google section lists the fallback records. -/
theorem summary_structure_witness :
    rank_products ⟨"iPhone 14", Option.none, some fallback_google,
        Option.none, Option.none⟩ =
      some ⟨Option.none, Option.none, Option.none,
        some ((pySortByRatingDesc ([] ++ fallback_google)).take 3),
        some (specSummary "iPhone 14" [] fallback_google)⟩ :=
  summary_structure "iPhone 14" Option.none (some fallback_google)
    Option.none Option.none (by intro d hd; cases hd) (by decide)

/-- C6: one pipeline run executes exactly the four stages in the fixed
order extract → search-A → search-B → rank; the trace exhibits that a
field, once written, reaches the final state unchanged, and each
stage's update touches only its designated fields. -/
theorem pipeline_stage_order (oracleA oracleB : String → Outcome) (q : String) :
    graph_invoke oracleA oracleB (initState q) =
      some ([("extract_product", initState q),
             ("search_amazon", initState q),
             ("search_google",
              ⟨q, some (search_amazon_products q (oracleA q)),
               Option.none, Option.none, Option.none⟩),
             ("rank_products",
              ⟨q, some (search_amazon_products q (oracleA q)),
               some (search_google_shopping q (oracleB q)),
               Option.none, Option.none⟩)],
            ⟨q, some (search_amazon_products q (oracleA q)),
             some (search_google_shopping q (oracleB q)),
             some ((pySortByRatingDesc
               (search_amazon_products q (oracleA q)
                ++ search_google_shopping q (oracleB q))).take 3),
             some (specSummary q (search_amazon_products q (oracleA q))
               (search_google_shopping q (oracleB q)))⟩) ∧
    (∀ s, (extract_product s).amazon_products = Option.none ∧
       (extract_product s).google_products = Option.none ∧
       (extract_product s).ranked_products = Option.none ∧
       (extract_product s).output_summary = Option.none) ∧
    (∀ s, (search_amazon oracleA s).user_input = Option.none ∧
       (search_amazon oracleA s).google_products = Option.none ∧
       (search_amazon oracleA s).ranked_products = Option.none ∧
       (search_amazon oracleA s).output_summary = Option.none) ∧
    (∀ s, (search_google oracleB s).user_input = Option.none ∧
       (search_google oracleB s).amazon_products = Option.none ∧
       (search_google oracleB s).ranked_products = Option.none ∧
       (search_google oracleB s).output_summary = Option.none) ∧
    (∃ u, rank_products
        ⟨q, some (search_amazon_products q (oracleA q)),
         some (search_google_shopping q (oracleB q)),
         Option.none, Option.none⟩ = some u ∧
       u.user_input = Option.none ∧ u.amazon_products = Option.none ∧
       u.google_products = Option.none) := by
  refine ⟨pipeline_run_eq oracleA oracleB q,
    fun s => ⟨rfl, rfl, rfl, rfl⟩,
    fun s => ⟨rfl, rfl, rfl, rfl⟩,
    fun s => ⟨rfl, rfl, rfl, rfl⟩, ?_⟩
  have h := rank_products_spec
    ⟨q, some (search_amazon_products q (oracleA q)),
     some (search_google_shopping q (oracleB q)), Option.none, Option.none⟩
    (fun d hd => search_amazon_products_wf q (oracleA q) d hd)
    (fun d hd => search_google_shopping_wf q (oracleB q) d hd)
  exact ⟨_, h, rfl, rfl, rfl⟩

/-- C7: the rank/summarize stage is a pure function of the query and
the two provider lists — two states agreeing on those three fields
(whatever their other fields hold) produce identical ranked lists and
byte-identical summaries. -/
theorem rank_deterministic (s₁ s₂ : ProductSearchState)
    (hq : s₁.user_input = s₂.user_input)
    (hma : s₁.amazon_products = s₂.amazon_products)
    (hmg : s₁.google_products = s₂.google_products) :
    rank_products s₁ = rank_products s₂ := by
  cases s₁
  cases s₂
  simp only at hq hma hmg
  subst hq
  subst hma
  subst hmg
  simp only [rank_products]

/-- C7 witness: the rank stage ignores the stale `ranked_products` and
`output_summary` fields. -/
theorem rank_deterministic_witness :
    rank_products ⟨"x", some fallback_amazon, some fallback_google,
        Option.none, Option.none⟩ =
    rank_products ⟨"x", some fallback_amazon, some fallback_google,
        some [], some "stale"⟩ :=
  rank_deterministic _ _ rfl rfl rfl

/-- C8: a button press with an empty query only shows the warning —
neither provider is called and the pipeline does not run; a press with
a non-empty query performs exactly one Amazon call and one Google call
with that query and shows the pipeline's summary (and nothing happens
without a press). -/
theorem ui_empty_query_guard (oracleA oracleB : String → Outcome)
    (text : String) :
    run_product_search oracleA oracleB false text = [] ∧
    (text = "" → run_product_search oracleA oracleB true text =
      [UIEvent.warned "Please enter a product query."]) ∧
    (text ≠ "" → run_product_search oracleA oracleB true text =
      [UIEvent.callAmazon text, UIEvent.callGoogle text,
       UIEvent.shownSummary (specSummary text
         (search_amazon_products text (oracleA text))
         (search_google_shopping text (oracleB text)))]) := by
  refine ⟨rfl, ?_, ?_⟩
  · rintro rfl
    rfl
  · intro h
    simp only [run_product_search, if_pos h, if_true, pipeline_run_eq,
      callEventsOf, List.filterMap]
    simp +decide [initState]

/-- C8 witness: concrete runs with a mocked always-failing transport —
the empty query yields only the warning, `"iPhone 14"` yields the two
provider calls and the summary. -/
theorem ui_empty_query_guard_witness :
    run_product_search (fun _ => Outcome.exn) (fun _ => Outcome.exn) true ""
      = [UIEvent.warned "Please enter a product query."] ∧
    run_product_search (fun _ => Outcome.exn) (fun _ => Outcome.exn) true "iPhone 14"
      = [UIEvent.callAmazon "iPhone 14", UIEvent.callGoogle "iPhone 14",
         UIEvent.shownSummary (specSummary "iPhone 14"
           (search_amazon_products "iPhone 14" Outcome.exn)
           (search_google_shopping "iPhone 14" Outcome.exn))] :=
  ⟨(ui_empty_query_guard (fun _ => Outcome.exn) (fun _ => Outcome.exn) "").2.1 rfl,
   (ui_empty_query_guard (fun _ => Outcome.exn) (fun _ => Outcome.exn)
     "iPhone 14").2.2 (by decide)⟩

/-- C9: the extract stage is an identity on the query — it writes back
exactly the incoming `user_input` and no other field, so the state
entering search-A is unchanged. -/
theorem extract_identity (s : ProductSearchState) :
    extract_product s =
      ⟨some s.user_input, Option.none, Option.none, Option.none, Option.none⟩ ∧
    applyUpdate s (extract_product s) = s := by
  refine ⟨rfl, ?_⟩
  cases s
  rfl

/-- C10: every record either provider can ever return — live-parsed or
fallback — carries the four keys `title`, `price`, `rating`, `link`
with a numeric (float) rating, so the summary renderer's subscript
accesses always succeed and the pipeline always produces a summary. -/
theorem records_always_renderable (q : String) (o : Outcome)
    (oracleA oracleB : String → Outcome) :
    (∀ d ∈ search_amazon_products q o, hasKeys d = true) ∧
    (∀ d ∈ search_google_shopping q o, hasKeys d = true) ∧
    (∀ d ∈ search_amazon_products q o,
        ∃ r : ℚ, pyIndex d "rating" = some (PyVal.num r)) ∧
    (∀ d ∈ search_google_shopping q o,
        ∃ r : ℚ, pyIndex d "rating" = some (PyVal.num r)) ∧
    (∀ tag i d, (d ∈ search_amazon_products q o ∨ d ∈ search_google_shopping q o) →
        (render_item tag i d).isSome) ∧
    (∃ tr fin, graph_invoke oracleA oracleB (initState q) = some (tr, fin) ∧
        fin.output_summary.isSome ∧ fin.ranked_products.isSome) := by
  refine ⟨search_amazon_products_wf q o, search_google_shopping_wf q o,
    fun d hd => hasKeys_rating (search_amazon_products_wf q o d hd),
    fun d hd => hasKeys_rating (search_google_shopping_wf q o d hd),
    ?_, ?_⟩
  · rintro tag i d (hd | hd)
    · rw [render_item_eq tag i (search_amazon_products_wf q o d hd)]
      rfl
    · rw [render_item_eq tag i (search_google_shopping_wf q o d hd)]
      rfl
  · exact ⟨_, _, pipeline_run_eq oracleA oracleB q, rfl, rfl⟩

/-- C10 witness: the renderer succeeds on the first Amazon fallback
record as a member of an HTTP-500 result. -/
theorem records_always_renderable_witness :
    (render_item " [Amazon]" 1
      [("title", PyVal.str "Fallback Product A"),
       ("price", PyVal.str "₹50,000"),
       ("rating", PyVal.num (mkRat 43 10)),
       ("link", PyVal.str "https://amazon.in/fallback-a")]).isSome := by
  have h := records_always_renderable "iPhone 14" (Outcome.ok 500 [])
    (fun _ => Outcome.exn) (fun _ => Outcome.exn)
  exact h.2.2.2.2.1 " [Amazon]" 1 _ (Or.inl (by decide))

end ECCC
